import Mathlib

/-!
Verification of the real-time messaging session layer of the chat-app backend
(`sockets/chat_sockets.js` together with `models/message_model.js` and
`models/user_model.js`).

The JavaScript handlers are shallowly embedded as pure Lean functions over an
explicit server state.  Conventions of the embedding:

* MongoDB object ids, user ids and room keys are Lean `String`s.  JavaScript
  compares strings by code units; the ids appearing here are hex identifiers,
  for which comparison by Unicode code point (as done by `charsLe` below)
  agrees with the JavaScript ordering.
* `Date` values are modelled as `Int` milliseconds.  A nullable date
  (`readStatus`) is an `Option Int`.  A client payload field that may be
  absent (`undefined`) is an `Option` of its type.
* Each `await`ed persistence call that can throw is given an explicit boolean
  oracle parameter (`findOk`, `saveOk`, ...): `true` means the call returns
  normally, `false` means it throws and control moves to the enclosing
  `catch` block.  `new Date(undefined)` is an invalid date, and Mongoose
  fails to cast an invalid date into the schema's `Date` field, so a missing
  client timestamp makes `newMessage.save()` throw; that path is modelled
  structurally (not by an oracle) since it is forced by the input.
* `socket.emit`, `io.to(room).emit` and `receiverSocket.emit` are modelled by
  returning a list of `Emit` records; `deliveredTo` gives the socket.io
  delivery semantics (a room emit reaches exactly the sockets currently
  joined to that room, with no exclusion of the emitter).
-/

/-- Characters compared by code point, mirroring JavaScript's default string
comparison used by `Array.prototype.sort()` on the participant ids. -/
def charsLe : List Char → List Char → Bool
  | [], _ => true
  | _ :: _, [] => false
  | a :: as, b :: bs =>
    if a.val.toNat < b.val.toNat then true
    else if b.val.toNat < a.val.toNat then false
    else charsLe as bs

/-- Lexicographic string comparison (JavaScript `a <= b` on strings). -/
def strLe (a b : String) : Bool := charsLe a.data b.data

/-- Split a character list on the underscore separator, mirroring
JavaScript's `String.prototype.split('_')`: the result for an empty string is
`[""]`, and every underscore starts a new (possibly empty) group. -/
def splitChars (cs : List Char) : List (List Char) :=
  match cs with
  | [] => [[]]
  | c :: rest =>
    let r := splitChars rest
    if c.val.toNat = 95 then [] :: r
    else
      match r with
      | [] => [[c]]
      | g :: gs => (c :: g) :: gs

/-- JavaScript `roomId.split('_')`. -/
def strSplitU (s : String) : List String :=
  (splitChars s.data).map String.mk

/-- A user document as used by the socket layer (`models/user_model.js`):
only the fields the chat handlers read. -/
structure UserRec where
  id : String
  fullName : String
  profilePic : String
deriving DecidableEq, Repr

/-- A persisted message document (`models/message_model.js`). -/
structure Msg where
  id : String
  senderId : String
  receiverId : String
  content : String
  timestamp : Int
  readStatus : Option Int
  type : String
deriving DecidableEq, Repr

/-- A connected socket: its connection id, the identity bound by the JWT
middleware (`socket.userId`, `socket.fullName`), the set of rooms it has
joined, and its `connected` flag. -/
structure Socket where
  sockId : String
  userId : String
  fullName : String
  rooms : List String
  connected : Bool
deriving DecidableEq, Repr

/-- The server state visible to the chat handlers: the user collection, the
message collection, and the set of live sockets (in `io.sockets.sockets`
iteration order). -/
structure ChatState where
  users : List UserRec
  store : List Msg
  sockets : List Socket
deriving DecidableEq, Repr

/-- The `send_message` client payload `{receiverId, content, timestamp, type}`;
each field may be absent. -/
structure SendData where
  receiverId : Option String
  content : Option String
  timestamp : Option Int
  type : Option String
deriving DecidableEq, Repr

/-- Formatted user info embedded in outbound message objects. -/
structure UserOut where
  id : String
  fullName : String
  profilePic : String
deriving DecidableEq, Repr

/-- A formatted outbound message as built by the handlers (the
`formattedMessages` mapping and `messageToEmit`): `senderId`/`receiverId`
become `null` when `populate` found no referenced user. -/
structure MsgOut where
  id : String
  senderId : Option String
  receiverId : Option String
  content : String
  timestamp : Int
  readStatus : Option Int
  type : String
  sender : Option UserOut
  receiver : Option UserOut
deriving DecidableEq, Repr

/-- Destination of an outbound event: one socket (`socket.emit` /
`receiverSocket.emit`) or one room (`io.to(roomId).emit`). -/
inductive Target where
  | sock (sid : String)
  | room (key : String)
deriving DecidableEq, Repr

/-- Outbound event payloads. -/
inductive Payload where
  | message (m : MsgOut)
  | history (l : List MsgOut)
  | err (s : String)
  | notif (senderId senderName messageContent messageType receiverId : String)
  | readReceipt (messageId : String) (readStatus : Int)
  | deleted (messageId : String)
  | updated (messageId newContent : String) (timestamp : Int)
deriving DecidableEq, Repr

/-- One outbound event. -/
structure Emit where
  target : Target
  event : String
  payload : Payload
deriving DecidableEq, Repr

/-- Shorthand for `socket.emit('chat_error', s)` to the handling socket. -/
def errTo (sock : Socket) (s : String) : Emit :=
  ⟨Target.sock sock.sockId, "chat_error", Payload.err s⟩

/-- JavaScript falsiness of a possibly-absent string field: `undefined`,
`null` and `""` are falsy. -/
def falsy : Option String → Bool
  | none => true
  | some s => s.data.isEmpty

/-- `User.findById`. -/
def findUser (users : List UserRec) (i : String) : Option UserRec :=
  users.find? fun u => u.id == i

/-- `Message.findById`. -/
def findMsg (store : List Msg) (i : String) : Option Msg :=
  store.find? fun m => m.id == i

/-- `deleteOne({_id: messageId})`: remove the first document with that id. -/
def deleteById : List Msg → String → List Msg
  | [], _ => []
  | m :: ms, i => if m.id == i then ms else m :: deleteById ms i

/-- `message.save()` after mutating a loaded document: replace the stored
document that has the same id. -/
def saveById (store : List Msg) (m2 : Msg) : List Msg :=
  store.map fun x => if x.id == m2.id then m2 else x

/-- The Room Resolver: `[idA, idB].sort().join('_')` as written in the
`send_message`, `update_message_read_status`, `delete_message` and
`update_message` handlers. -/
def resolve (a b : String) : String :=
  if strLe a b then a ++ "_" ++ b else b ++ "_" ++ a

/-- The `join_room` handler's `const [user1Id, user2Id] = roomId.split('_')`:
the first two groups of the split; `user2Id` is `undefined` when the key has
no separator. -/
def parseRoom (roomId : String) : String × Option String :=
  match strSplitU roomId with
  | [] => ("", none)
  | [a] => (a, none)
  | a :: b :: _ => (a, some b)

/-- One condition of a Mongoose query filter.  Mongoose strips `undefined`
values from a filter, so an absent value matches every document. -/
def condMatches (field : String) (cond : Option String) : Bool :=
  match cond with
  | none => true
  | some v => field == v

/-- The `$or` filter of the history query: sender/receiver match the two
room participants in either order. -/
def participantFilter (u1 : String) (u2 : Option String) (m : Msg) : Bool :=
  (m.senderId == u1 && condMatches m.receiverId u2) ||
  (condMatches m.senderId u2 && m.receiverId == u1)

/-- Insert a message into a timestamp-ascending list (stable). -/
def insertByTs (m : Msg) : List Msg → List Msg
  | [] => [m]
  | x :: xs => if m.timestamp < x.timestamp then m :: x :: xs else x :: insertByTs m xs

/-- `.sort({timestamp: 1})`: stable sort by ascending timestamp. -/
def sortByTimestamp : List Msg → List Msg
  | [] => []
  | m :: ms => insertByTs m (sortByTimestamp ms)

/-- The history query of `join_room`: `Message.find({$or: [...]}).sort({timestamp: 1})`. -/
def historyQuery (store : List Msg) (u1 : String) (u2 : Option String) : List Msg :=
  sortByTimestamp (store.filter (participantFilter u1 u2))

/-- Lookup of all messages between two (defined) participants, ordered by
ascending timestamp — the Message Store's `findByParticipants`. -/
def findByParticipants (store : List Msg) (a b : String) : List Msg :=
  historyQuery store a (some b)

/-- Formatted user object (`{id, fullName, profilePic}`). -/
def formatUserOut (u : UserRec) : UserOut := ⟨u.id, u.fullName, u.profilePic⟩

/-- The `formattedMessages` mapping of `join_room`: `populate` resolves the
sender/receiver references (giving `null` for a missing user), and the
formatted object carries ids, content, timestamps, read status and type. -/
def formatHistMsg (users : List UserRec) (m : Msg) : MsgOut :=
  let s := findUser users m.senderId
  let r := findUser users m.receiverId
  { id := m.id
    senderId := s.map (fun u => u.id)
    receiverId := r.map (fun u => u.id)
    content := m.content
    timestamp := m.timestamp
    readStatus := m.readStatus
    type := m.type
    sender := s.map formatUserOut
    receiver := r.map formatUserOut }

/-- The chat history payload for a given room key: a function of the user
collection, the message store and the key only — no property of the
requesting connection occurs in it. -/
def chatHistoryFor (users : List UserRec) (store : List Msg) (roomArg : String) :
    List MsgOut :=
  (historyQuery store (parseRoom roomArg).1 (parseRoom roomArg).2).map (formatHistMsg users)

/-- The `messageToEmit` object of `send_message`: the sender block uses
`socket.userId`/`socket.fullName` from the JWT plus the sender document's
`profilePic`; the receiver block uses the looked-up receiver document. -/
def formatSendMsg (m : Msg) (sock : Socket) (senderUser receiver : UserRec) : MsgOut :=
  { id := m.id
    senderId := some m.senderId
    receiverId := some m.receiverId
    content := m.content
    timestamp := m.timestamp
    readStatus := m.readStatus
    type := m.type
    sender := some ⟨sock.userId, sock.fullName, senderUser.profilePic⟩
    receiver := some ⟨receiver.id, receiver.fullName, receiver.profilePic⟩ }

/-- `socket.join(roomId)`: the room set gains `roomId` (socket.io room sets
contain no duplicates). -/
def joinRoomList (rooms : List String) (r : String) : List String :=
  if rooms.contains r then rooms else rooms ++ [r]

/-- The `join_room` handler.  The event argument is the raw room key sent by
the client.  The socket joins that key verbatim, the key is split on `_`
into the two participant ids, and the history of that pair is emitted back
to the joining socket only.  `findOk = false` models the `Message.find`
chain throwing, which is caught and reported as a load failure. -/
def join_room (st : ChatState) (sock : Socket) (roomArg : String) (findOk : Bool) :
    ChatState × List Emit :=
  let sockets2 := st.sockets.map fun s =>
    if s.sockId == sock.sockId then { s with rooms := joinRoomList s.rooms roomArg } else s
  let st2 := { st with sockets := sockets2 }
  if findOk then
    let p := parseRoom roomArg
    let fm := (historyQuery st.store p.1 p.2).map (formatHistMsg st.users)
    (st2, [⟨Target.sock sock.sockId, "chat_history", Payload.history fm⟩])
  else
    (st2, [⟨Target.sock sock.sockId, "chat_error", Payload.err "Failed to load chat history."⟩])

/-- The `send_message` handler.  Validation checks `receiverId`, `content`
and `type` for falsiness (the client `timestamp` is not checked); the
receiver is then looked up; a missing timestamp makes the Mongoose save
throw on the invalid date; on a successful save the message is broadcast to
the canonical room and the first other connection of the receiver that is
not in the room receives a notification trigger.  A failing sender lookup
for `messageToEmit` aborts before the broadcast but after the save. -/
def send_message (st : ChatState) (sock : Socket) (d : SendData) (saveOk : Bool)
    (newId : String) : ChatState × List Emit :=
  if falsy d.receiverId || falsy d.content || falsy d.type then
    (st, [errTo sock "Invalid message data"])
  else
    let rid := d.receiverId.getD ""
    match findUser st.users rid with
    | none => (st, [errTo sock "Receiver not found"])
    | some receiver =>
      match d.timestamp with
      | none => (st, [errTo sock "Failed to send message."])
      | some ts =>
        if saveOk then
          let m : Msg := ⟨newId, sock.userId, receiver.id, d.content.getD "", ts, none, d.type.getD ""⟩
          let store2 := st.store ++ [m]
          match findUser st.users sock.userId with
          | none => ({ st with store := store2 }, [errTo sock "Failed to send message."])
          | some senderUser =>
            let roomId := resolve sock.userId receiver.id
            let out := formatSendMsg m sock senderUser receiver
            let notifTarget := st.sockets.find? fun s =>
              s.userId == rid && s.connected && !(s.rooms.contains roomId)
            let notifs : List Emit :=
              match notifTarget with
              | some s => [⟨Target.sock s.sockId, "trigger_local_notification",
                  Payload.notif sock.userId sock.fullName m.content m.type m.receiverId⟩]
              | none => []
            ({ st with store := store2 },
              ⟨Target.room roomId, "receive_message", Payload.message out⟩ :: notifs)
        else (st, [errTo sock "Failed to send message."])

/-- The `update_message_read_status` handler.  Note that its `catch` block
only logs: no error event reaches the client on any failure path. -/
def update_message_read_status (st : ChatState) (sock : Socket) (mid : String)
    (now : Int) (findOk saveOk : Bool) : ChatState × List Emit :=
  if !findOk then (st, [])
  else
    match findMsg st.store mid with
    | some m =>
      if m.readStatus.isNone then
        if saveOk then
          let m2 := { m with readStatus := some now }
          let store2 := saveById st.store m2
          match findUser st.users m.senderId, findUser st.users m.receiverId with
          | some su, some ru =>
            ({ st with store := store2 },
              [⟨Target.room (resolve su.id ru.id), "message_read",
                Payload.readReceipt m.id now⟩])
          | _, _ => ({ st with store := store2 }, [])
        else (st, [])
      else (st, [])
    | none => (st, [])

/-- The `delete_message` handler: only the sender may delete; any failure in
the `try` block is caught and reported as a delete failure. -/
def delete_message (st : ChatState) (sock : Socket) (mid : String)
    (findOk delOk : Bool) : ChatState × List Emit :=
  if !findOk then (st, [errTo sock "Failed to delete message."])
  else
    match findMsg st.store mid with
    | some m =>
      if m.senderId == sock.userId then
        if delOk then
          let store2 := deleteById st.store mid
          match findUser st.users m.senderId, findUser st.users m.receiverId with
          | some su, some ru =>
            ({ st with store := store2 },
              [⟨Target.room (resolve su.id ru.id), "message_deleted", Payload.deleted m.id⟩])
          | _, _ => ({ st with store := store2 }, [errTo sock "Failed to delete message."])
        else (st, [errTo sock "Failed to delete message."])
      else (st, [errTo sock "You are not authorized to delete this message."])
    | none => (st, [errTo sock "You are not authorized to delete this message."])

/-- The `update_message` handler: only the sender may edit, and only text
messages; the broadcast carries the new content with the original creation
timestamp. -/
def update_message (st : ChatState) (sock : Socket) (mid newContent : String)
    (findOk saveOk : Bool) : ChatState × List Emit :=
  if !findOk then (st, [errTo sock "Failed to update message."])
  else
    match findMsg st.store mid with
    | some m =>
      if m.senderId == sock.userId && m.type == "text" then
        if saveOk then
          let m2 := { m with content := newContent }
          let store2 := saveById st.store m2
          match findUser st.users m.senderId, findUser st.users m.receiverId with
          | some su, some ru =>
            ({ st with store := store2 },
              [⟨Target.room (resolve su.id ru.id), "message_updated",
                Payload.updated m.id newContent m.timestamp⟩])
          | _, _ => ({ st with store := store2 }, [errTo sock "Failed to update message."])
        else (st, [errTo sock "Failed to update message."])
      else (st, [errTo sock
          "You are not authorized to edit this message or it is not a text message."])
    | none => (st, [errTo sock
        "You are not authorized to edit this message or it is not a text message."])

/-- Socket.io delivery semantics: an emitted event reaches socket `sid` when
it is unicast to `sid`, or broadcast to a room `sid` has joined.  `io.to`
does not exclude the emitting socket. -/
def deliveredTo (sockets : List Socket) (emits : List Emit) (sid : String)
    (event : String) : Bool :=
  emits.any fun e =>
    e.event == event &&
    match e.target with
    | Target.sock s => s == sid
    | Target.room r => sockets.any fun s => s.sockId == sid && s.rooms.contains r

/-- The event names and payloads of an emit list, with the targets erased. -/
def emitPayloads (l : List Emit) : List (String × Payload) :=
  l.map fun e => (e.event, e.payload)

/-- Concrete users and states used by the witnesses and counterexamples. -/
def uA : UserRec := ⟨"a", "Alice", "picA"⟩

/-- Concrete second user. -/
def uB : UserRec := ⟨"b", "Bob", "picB"⟩

/-- An unread text message from `a` to `b`. -/
def msgAB : Msg := ⟨"m1", "a", "b", "hi", 5, none, "text"⟩

/-- An already-read text message from `a` to `b`. -/
def msgRead : Msg := ⟨"m2", "a", "b", "yo", 6, some 7, "text"⟩

/-- An unread image message from `a` to `b`. -/
def msgImg : Msg := ⟨"m3", "a", "b", "pic.png", 8, none, "image"⟩

/-- Alice's socket, already joined to the canonical room of the pair. -/
def sockA1 : Socket := ⟨"sa", "a", "Alice", ["a_b"], true⟩

/-- Alice's socket with no joined rooms. -/
def sockA0 : Socket := ⟨"sa", "a", "Alice", [], true⟩

/-- Bob's socket with no joined rooms. -/
def sockB0 : Socket := ⟨"sb", "b", "Bob", [], true⟩

/-- A first extra connection of Bob, not in the room. -/
def sockB1 : Socket := ⟨"sb1", "b", "Bob", [], true⟩

/-- A second extra connection of Bob, not in the room. -/
def sockB2 : Socket := ⟨"sb2", "b", "Bob", [], true⟩

/-- State for the `join_room` counterexample: one message between `a` and
`b`, Alice connected with no rooms. -/
def st1 : ChatState := ⟨[uA, uB], [msgAB], [sockA0]⟩

/-- State for the `send_message` witnesses: both users, empty store, Alice
joined to the canonical room. -/
def stW : ChatState := ⟨[uA, uB], [], [sockA1]⟩

/-- State for the notification counterexample: Bob has two extra connections
outside the room. -/
def stN : ChatState := ⟨[uA, uB], [], [sockA1, sockB1, sockB2]⟩

/-- State for the read-status/delete/update witnesses: three stored messages
and both users connected. -/
def st6 : ChatState := ⟨[uA, uB], [msgAB, msgRead, msgImg], [sockA1, sockB0]⟩

/-- State for the self-send counterexample: only Alice exists. -/
def st9 : ChatState := ⟨[uA], [], [sockA0]⟩

/-- Characters are determined by their code points. -/
theorem char_eq_of_toNat (x y : Char) (h : x.val.toNat = y.val.toNat) : x = y :=
  Char.eq_of_val_eq (UInt32.eq_of_toBitVec_eq (by
    simpa [UInt32.toNat] using BitVec.eq_of_toNat_eq h))

/-- The character comparison is total. -/
theorem chars_le_total (a b : List Char) : charsLe a b = true ∨ charsLe b a = true := by
  induction a generalizing b with
  | nil => left; rfl
  | cons x xs ih =>
    cases b with
    | nil => right; rfl
    | cons y ys =>
      rcases Nat.lt_trichotomy x.val.toNat y.val.toNat with h | h | h
      · left; simp [charsLe, h]
      · rcases ih ys with h2 | h2
        · left; simp [charsLe, h, h2]
        · right; simp [charsLe, h, h2]
      · right; simp [charsLe, h, Nat.lt_asymm h]

/-- The character comparison is antisymmetric. -/
theorem chars_le_antisymm (a b : List Char) (h1 : charsLe a b = true)
    (h2 : charsLe b a = true) : a = b := by
  induction a generalizing b with
  | nil =>
    cases b with
    | nil => rfl
    | cons y ys => simp [charsLe] at h2
  | cons x xs ih =>
    cases b with
    | nil => simp [charsLe] at h1
    | cons y ys =>
      rcases Nat.lt_trichotomy x.val.toNat y.val.toNat with h | h | h
      · simp [charsLe, h, Nat.lt_asymm h] at h2
      · simp [charsLe, h, Nat.lt_irrefl] at h1 h2
        rw [char_eq_of_toNat x y h, ih ys h1 h2]
      · simp [charsLe, h, Nat.lt_asymm h] at h1

/-- String comparison is total. -/
theorem strLe_total (a b : String) : strLe a b = true ∨ strLe b a = true :=
  chars_le_total a.data b.data

/-- String comparison is antisymmetric. -/
theorem strLe_antisymm (a b : String) (h1 : strLe a b = true) (h2 : strLe b a = true) :
    a = b := by
  cases a; cases b
  exact congrArg String.mk (chars_le_antisymm _ _ h1 h2)

/-- Membership in an insertion step of the timestamp sort. -/
theorem mem_insertByTs (x m : Msg) (l : List Msg) :
    x ∈ insertByTs m l ↔ x = m ∨ x ∈ l := by
  induction l with
  | nil => simp [insertByTs]
  | cons y ys ih =>
    by_cases h : m.timestamp < y.timestamp
    · simp [insertByTs, h]
    · simp [insertByTs, h, ih]
      tauto

/-- Sorting by timestamp preserves membership. -/
theorem mem_sortByTimestamp (x : Msg) (l : List Msg) :
    x ∈ sortByTimestamp l ↔ x ∈ l := by
  induction l with
  | nil => simp [sortByTimestamp]
  | cons y ys ih => simp [sortByTimestamp, mem_insertByTs, ih]

/-- A successful `findUser` returns a document whose id is the queried id. -/
theorem findUser_id_eq (users : List UserRec) (i : String) (u : UserRec)
    (h : findUser users i = some u) : u.id = i := by
  have := List.find?_some h
  exact eq_of_beq this

/-- The `send_message` success path, characterized: validation passes, the
receiver and the sender documents are found, the client timestamp is
present, and the save succeeds. -/
theorem send_message_success_eq (st : ChatState) (sock : Socket) (r c ty : String)
    (ts : Int) (newId : String) (recv su : UserRec)
    (hr : r.data.isEmpty = false) (hc : c.data.isEmpty = false)
    (hty : ty.data.isEmpty = false)
    (hrecv : findUser st.users r = some recv)
    (hsu : findUser st.users sock.userId = some su) :
    send_message st sock ⟨some r, some c, some ts, some ty⟩ true newId =
      ({ st with store := st.store ++ [⟨newId, sock.userId, recv.id, c, ts, none, ty⟩] },
        ⟨Target.room (resolve sock.userId recv.id), "receive_message",
          Payload.message (formatSendMsg ⟨newId, sock.userId, recv.id, c, ts, none, ty⟩
            sock su recv)⟩ ::
        (match st.sockets.find? (fun s =>
            s.userId == r && s.connected &&
              !(s.rooms.contains (resolve sock.userId recv.id))) with
          | some s => [⟨Target.sock s.sockId, "trigger_local_notification",
              Payload.notif sock.userId sock.fullName c ty recv.id⟩]
          | none => [])) := by
  simp [send_message, falsy, hr, hc, hty, hrecv, hsu]

/-- Delivery of a room broadcast at the head of an emit list: every socket
currently joined to the room receives the event. -/
theorem deliveredTo_room_head (sockets : List Socket) (roomId ev : String) (p : Payload)
    (rest : List Emit) (s : Socket) (hs : s ∈ sockets)
    (hroom : s.rooms.contains roomId = true) :
    deliveredTo sockets (⟨Target.room roomId, ev, p⟩ :: rest) s.sockId ev = true := by
  unfold deliveredTo
  rw [List.any_cons]
  simp only [Bool.or_eq_true]
  left
  show ((ev == ev) && sockets.any fun s2 => s2.sockId == s.sockId && s2.rooms.contains roomId) = true
  simp only [beq_self_eq_true, Bool.true_and]
  exact List.any_eq_true.mpr ⟨s, hs, by
    simp only [beq_self_eq_true, Bool.true_and]
    exact hroom⟩

/-- C3: the room-key resolution is commutative — for every pair of ids,
`resolve` yields the same canonical key in either argument order, and that
key is one of the two ids followed by the other with the fixed `_`
separator, the lexicographically smaller id first. -/
theorem C3_resolve_commutative (a b : String) :
    resolve a b = resolve b a ∧
    (resolve a b = a ++ "_" ++ b ∨ resolve a b = b ++ "_" ++ a) := by
  constructor
  · cases hab : strLe a b <;> cases hba : strLe b a <;> simp [resolve, hab, hba]
    · rcases strLe_total a b with h | h
      · simp [hab] at h
      · simp [hba] at h
    · rw [strLe_antisymm a b hab hba]
  · cases hab : strLe a b <;> simp [resolve, hab]

/-- C10: the `join_room` handler performs no participant-membership check:
the `chat_history` payload it emits is a function of the supplied room key,
the message store and the user collection only, and is therefore identical
for any two requesting connections — any authenticated user who supplies a
pair's room key receives that pair's full history. -/
theorem C10_history_independent_of_caller (st : ChatState) (roomArg : String)
    (findOk : Bool) (s1 s2 : Socket) :
    (join_room st s1 roomArg true).2 =
      [⟨Target.sock s1.sockId, "chat_history",
        Payload.history (chatHistoryFor st.users st.store roomArg)⟩] ∧
    emitPayloads (join_room st s1 roomArg findOk).2 =
      emitPayloads (join_room st s2 roomArg findOk).2 := by
  constructor
  · simp [join_room, chatHistoryFor]
  · cases findOk <;> simp [join_room, emitPayloads]

/-- C1 counterexample: the connection's verified user id is `a` and the
event argument is `b` (the peer id, under the claim's reading of the event);
the canonical key would be `a_b`, but the handler joins the connection to
the raw argument `b` — the joined room is not the resolver-derived key. -/
theorem C1_counterexample :
    resolve "a" "b" = "a_b" ∧
    (join_room st1 sockA0 "b" true).1.sockets = [⟨"sa", "a", "Alice", ["b"], true⟩] ∧
    (((join_room st1 sockA0 "b" true).1.sockets.map Socket.rooms).contains ["a_b"]) = false := by
  refine ⟨by decide, by decide, by decide⟩

/-- C1 (amended): `join_room` joins the connection to the room key supplied
in the event verbatim — no canonical key is derived from the caller's
verified id — and the history emitted to the joiner is that of the
participant pair parsed from the supplied key by splitting it on `_`. -/
theorem C1_amended_join_uses_supplied_key (st : ChatState) (sock : Socket)
    (roomArg : String) (findOk : Bool) :
    (∀ s, s ∈ (join_room st sock roomArg findOk).1.sockets →
      s.sockId = sock.sockId → roomArg ∈ s.rooms) ∧
    (join_room st sock roomArg true).2 =
      [⟨Target.sock sock.sockId, "chat_history",
        Payload.history ((historyQuery st.store (parseRoom roomArg).1
          (parseRoom roomArg).2).map (formatHistMsg st.users))⟩] := by
  constructor
  · intro s hs hsid
    have hmem : s ∈ st.sockets.map (fun s0 =>
        if s0.sockId == sock.sockId then
          { s0 with rooms := joinRoomList s0.rooms roomArg } else s0) := by
      cases findOk <;> simpa [join_room] using hs
    obtain ⟨s0, hs0, heq⟩ := List.mem_map.mp hmem
    by_cases hb : (s0.sockId == sock.sockId) = true
    · rw [if_pos hb] at heq
      subst heq
      show roomArg ∈ joinRoomList s0.rooms roomArg
      unfold joinRoomList
      by_cases hc : s0.rooms.contains roomArg
      · rw [if_pos hc]
        simpa using hc
      · rw [if_neg hc]
        exact List.mem_append_right _ (List.mem_singleton.mpr rfl)
    · rw [if_neg hb] at heq
      subst heq
      simp only [beq_iff_eq] at hb
      exact absurd hsid hb
  · simp [join_room]

/-- C1 witness: joining with the well-formed key `a_b` from a state holding
one message of the pair. -/
theorem C1_witness :
    "a_b" ∈ (Socket.mk "sa" "a" "Alice" ["a_b"] true).rooms ∧
    (join_room st1 sockA0 "a_b" true).2 =
      [⟨Target.sock sockA0.sockId, "chat_history",
        Payload.history ((historyQuery st1.store (parseRoom "a_b").1
          (parseRoom "a_b").2).map (formatHistMsg st1.users))⟩] := by
  constructor
  · exact (C1_amended_join_uses_supplied_key st1 sockA0 "a_b" true).1
      ⟨"sa", "a", "Alice", ["a_b"], true⟩ (by decide) (by decide)
  · exact (C1_amended_join_uses_supplied_key st1 sockA0 "a_b" true).2

/-- C2: for a `send_message` whose validation and persistence succeed (all
checked fields non-falsy, receiver and sender documents found, timestamp
present, save successful), a new message with null read status is appended
to the store, it appears in `findByParticipants` of the sender/receiver
pair, and `receive_message` is delivered to every connection currently
joined to the canonical room derived from that pair — the sender's own
connection included, when it is joined. -/
theorem C2_send_message_persists_and_broadcasts (st : ChatState) (sock : Socket)
    (r c ty : String) (ts : Int) (newId : String) (recv su : UserRec)
    (hr : r.data.isEmpty = false) (hc : c.data.isEmpty = false)
    (hty : ty.data.isEmpty = false)
    (hrecv : findUser st.users r = some recv)
    (hsu : findUser st.users sock.userId = some su) :
    (send_message st sock ⟨some r, some c, some ts, some ty⟩ true newId).1.store =
      st.store ++ [⟨newId, sock.userId, recv.id, c, ts, none, ty⟩] ∧
    (⟨newId, sock.userId, recv.id, c, ts, none, ty⟩ : Msg).readStatus = none ∧
    (⟨newId, sock.userId, recv.id, c, ts, none, ty⟩ : Msg) ∈
      findByParticipants
        (send_message st sock ⟨some r, some c, some ts, some ty⟩ true newId).1.store
        sock.userId recv.id ∧
    (∀ s ∈ st.sockets, s.rooms.contains (resolve sock.userId recv.id) = true →
      deliveredTo st.sockets
        (send_message st sock ⟨some r, some c, some ts, some ty⟩ true newId).2
        s.sockId "receive_message" = true) ∧
    (sock ∈ st.sockets → sock.rooms.contains (resolve sock.userId recv.id) = true →
      deliveredTo st.sockets
        (send_message st sock ⟨some r, some c, some ts, some ty⟩ true newId).2
        sock.sockId "receive_message" = true) := by
  have he := send_message_success_eq st sock r c ty ts newId recv su hr hc hty hrecv hsu
  rw [he]
  refine ⟨rfl, rfl, ?_, ?_, ?_⟩
  · unfold findByParticipants historyQuery
    rw [mem_sortByTimestamp]
    refine List.mem_filter.mpr
      ⟨List.mem_append_right _ (List.mem_singleton.mpr rfl), ?_⟩
    simp [participantFilter, condMatches]
  · intro s hs hroom
    exact deliveredTo_room_head st.sockets _ _ _ _ s hs hroom
  · intro hmem hroom
    exact deliveredTo_room_head st.sockets _ _ _ _ sock hmem hroom

/-- C2 witness: Alice (joined to `a_b`) sends a text message to Bob; the
store gains the message and her own connection receives the broadcast. -/
theorem C2_witness :
    (send_message stW sockA1 ⟨some "b", some "hi", some 5, some "text"⟩ true "m1").1.store =
      stW.store ++ [⟨"m1", sockA1.userId, uB.id, "hi", 5, none, "text"⟩] ∧
    deliveredTo stW.sockets
      (send_message stW sockA1 ⟨some "b", some "hi", some 5, some "text"⟩ true "m1").2
      sockA1.sockId "receive_message" = true := by
  have h := C2_send_message_persists_and_broadcasts stW sockA1 "b" "hi" "text" 5 "m1" uB uA
    (by decide) (by decide) (by decide) (by decide) (by decide)
  exact ⟨h.1, h.2.2.2.2 (by decide) (by decide)⟩

/-- C4 counterexample: a payload in which only `timestamp` is missing (the
receiver exists and every other field is non-falsy) does not produce the
validation error the claim requires; the handler proceeds past validation
and the failed save yields the generic send failure instead. -/
theorem C4_counterexample :
    falsy (some "b") = false ∧ falsy (some "hi") = false ∧
    falsy (some "text") = false ∧
    findUser stW.users "b" = some uB ∧
    send_message stW sockA1 ⟨some "b", some "hi", none, some "text"⟩ true "m9" =
      (stW, [⟨Target.sock "sa", "chat_error", Payload.err "Failed to send message."⟩]) := by
  refine ⟨by decide, by decide, by decide, by decide, by decide⟩

/-- C4 (amended): validation checks only `receiverId`, `content` and `type`;
if any of those is falsy, the handler emits the validation error and stops
with no persistence and no broadcast; if they pass but the receiver is
absent, it emits the receiver-not-found error and stops likewise; a missing
`timestamp` passes validation, and the subsequent save of the invalid date
fails, producing the generic send failure — again with no persistence and
no broadcast. -/
theorem C4_amended_validation_paths (st : ChatState) (sock : Socket) (d : SendData)
    (saveOk : Bool) (newId : String) :
    ((falsy d.receiverId || falsy d.content || falsy d.type) = true →
      send_message st sock d saveOk newId = (st, [errTo sock "Invalid message data"])) ∧
    (falsy d.receiverId = false → falsy d.content = false → falsy d.type = false →
      findUser st.users (d.receiverId.getD "") = none →
      send_message st sock d saveOk newId = (st, [errTo sock "Receiver not found"])) ∧
    (∀ recv, falsy d.receiverId = false → falsy d.content = false →
      falsy d.type = false →
      findUser st.users (d.receiverId.getD "") = some recv → d.timestamp = none →
      send_message st sock d saveOk newId =
        (st, [errTo sock "Failed to send message."])) := by
  refine ⟨?_, ?_, ?_⟩
  · intro h
    simp [send_message, h]
  · intro h1 h2 h3 h4
    simp [send_message, h1, h2, h3, h4]
  · intro recv h1 h2 h3 h4 h5
    simp [send_message, h1, h2, h3, h4, h5]

/-- C4 witness: a missing `receiverId` is rejected by validation, and a
missing `timestamp` falls through validation into the generic save
failure. -/
theorem C4_witness :
    send_message stW sockA1 ⟨none, some "hi", some 5, some "text"⟩ true "m9" =
      (stW, [errTo sockA1 "Invalid message data"]) ∧
    send_message stW sockA1 ⟨some "b", some "hi", none, some "text"⟩ false "m9" =
      (stW, [errTo sockA1 "Failed to send message."]) :=
  ⟨(C4_amended_validation_paths stW sockA1 ⟨none, some "hi", some 5, some "text"⟩
      true "m9").1 (by decide),
   (C4_amended_validation_paths stW sockA1 ⟨some "b", some "hi", none, some "text"⟩
      false "m9").2.2 uB (by decide) (by decide) (by decide) (by decide) (by decide)⟩

/-- C5 counterexample: Bob has two active connections outside the derived
room (`sb1` and `sb2`); after Alice's successful send, `sb2` — although it
satisfies every criterion of the claim — receives no
`trigger_local_notification`, because the handler notifies only the first
matching connection. -/
theorem C5_counterexample :
    sockB2 ∈ stN.sockets ∧ sockB2.userId = "b" ∧ sockB2.connected = true ∧
    sockB2.rooms.contains (resolve "a" "b") = false ∧
    deliveredTo stN.sockets
      (send_message stN sockA1 ⟨some "b", some "hi", some 5, some "text"⟩ true "m1").2
      sockB1.sockId "trigger_local_notification" = true ∧
    deliveredTo stN.sockets
      (send_message stN sockA1 ⟨some "b", some "hi", some 5, some "text"⟩ true "m1").2
      sockB2.sockId "trigger_local_notification" = false := by
  refine ⟨by decide, by decide, by decide, by decide, by decide, by decide⟩

/-- C5 (amended): after a successful `send_message`, at most one connection
of the receiver outside the derived room is notified — the first matching
connection in the server's socket list receives
`trigger_local_notification` and every other socket receives none; when no
connection matches, nothing is emitted beyond the room broadcast and the
send still succeeds. -/
theorem C5_amended_first_matching_connection_notified (st : ChatState) (sock : Socket)
    (r c ty : String) (ts : Int) (newId : String) (recv su : UserRec)
    (hr : r.data.isEmpty = false) (hc : c.data.isEmpty = false)
    (hty : ty.data.isEmpty = false)
    (hrecv : findUser st.users r = some recv)
    (hsu : findUser st.users sock.userId = some su) :
    (∀ s2, st.sockets.find? (fun s => s.userId == r && s.connected &&
        !(s.rooms.contains (resolve sock.userId recv.id))) = some s2 →
      deliveredTo st.sockets
        (send_message st sock ⟨some r, some c, some ts, some ty⟩ true newId).2
        s2.sockId "trigger_local_notification" = true ∧
      (∀ sid, sid ≠ s2.sockId →
        deliveredTo st.sockets
          (send_message st sock ⟨some r, some c, some ts, some ty⟩ true newId).2
          sid "trigger_local_notification" = false)) ∧
    (st.sockets.find? (fun s => s.userId == r && s.connected &&
        !(s.rooms.contains (resolve sock.userId recv.id))) = none →
      (send_message st sock ⟨some r, some c, some ts, some ty⟩ true newId).1.store =
        st.store ++ [⟨newId, sock.userId, recv.id, c, ts, none, ty⟩] ∧
      (∀ sid, deliveredTo st.sockets
        (send_message st sock ⟨some r, some c, some ts, some ty⟩ true newId).2
        sid "trigger_local_notification" = false)) := by
  have he := send_message_success_eq st sock r c ty ts newId recv su hr hc hty hrecv hsu
  rw [he]
  constructor
  · intro s2 hfind
    simp only [hfind]
    constructor
    · simp [deliveredTo]
    · intro sid hsid
      simp [deliveredTo, hsid]
      intro h
      exact absurd h.symm hsid
  · intro hfind
    simp only [hfind]
    refine ⟨by trivial, ?_⟩
    intro sid
    simp [deliveredTo]

/-- C5 witness: in a state where Bob has two matching connections, the first
one (`sb1`) is notified and the second (`sb2`) is not; the first-match
hypothesis is discharged concretely. -/
theorem C5_witness :
    deliveredTo stN.sockets
      (send_message stN sockA1 ⟨some "b", some "hi", some 5, some "text"⟩ true "m1").2
      sockB1.sockId "trigger_local_notification" = true ∧
    deliveredTo stN.sockets
      (send_message stN sockA1 ⟨some "b", some "hi", some 5, some "text"⟩ true "m1").2
      sockB2.sockId "trigger_local_notification" = false := by
  have h := (C5_amended_first_matching_connection_notified stN sockA1 "b" "hi" "text" 5
    "m1" uB uA (by decide) (by decide) (by decide) (by decide) (by decide)).1
    sockB1 (by decide)
  exact ⟨h.1, h.2 sockB2.sockId (by decide)⟩

/-- C6: `update_message_read_status` is a guarded null-to-set transition —
if the message is absent or already read it performs no store mutation and
emits nothing (for any outcome of the persistence oracles), and otherwise
(message found unread, lookups and save succeeding) it sets the read
timestamp, persists the mutation, and broadcasts `message_read` to the
canonical room of the message's own sender/receiver pair. -/
theorem C6_read_status_idempotent_and_guarded (st : ChatState) (sock : Socket)
    (mid : String) (now : Int) (findOk saveOk : Bool) :
    (findMsg st.store mid = none →
      update_message_read_status st sock mid now findOk saveOk = (st, [])) ∧
    (∀ m, findMsg st.store mid = some m → m.readStatus ≠ none →
      update_message_read_status st sock mid now findOk saveOk = (st, [])) ∧
    (∀ m su ru, findMsg st.store mid = some m → m.readStatus = none →
      findUser st.users m.senderId = some su →
      findUser st.users m.receiverId = some ru →
      update_message_read_status st sock mid now true true =
        ({ st with store := saveById st.store { m with readStatus := some now } },
          [⟨Target.room (resolve m.senderId m.receiverId), "message_read",
            Payload.readReceipt m.id now⟩])) := by
  refine ⟨?_, ?_, ?_⟩
  · intro h
    cases findOk <;> simp [update_message_read_status, h]
  · intro m hm hnr
    cases hrs : m.readStatus with
    | none => exact absurd hrs hnr
    | some v =>
      cases findOk <;> simp [update_message_read_status, hm, hrs]
  · intro m su ru hm hrd hsu hru
    have hsid : su.id = m.senderId := findUser_id_eq _ _ _ hsu
    have hrid : ru.id = m.receiverId := findUser_id_eq _ _ _ hru
    simp [update_message_read_status, hm, hrd, hsu, hru, hsid, hrid]

/-- C6 witness: marking the already-read `m2` changes nothing and emits
nothing; marking the unread `m1` mutates exactly its read timestamp and
broadcasts `message_read` to the pair's room. -/
theorem C6_witness :
    update_message_read_status st6 sockB0 "m2" 99 true true = (st6, []) ∧
    update_message_read_status st6 sockB0 "m1" 99 true true =
      ({ st6 with store := saveById st6.store { msgAB with readStatus := some 99 } },
        [⟨Target.room (resolve msgAB.senderId msgAB.receiverId), "message_read",
          Payload.readReceipt msgAB.id 99⟩]) := by
  constructor
  · exact (C6_read_status_idempotent_and_guarded st6 sockB0 "m2" 99 true true).2.1
      msgRead (by decide) (by decide)
  · exact (C6_read_status_idempotent_and_guarded st6 sockB0 "m1" 99 true true).2.2
      msgAB uA uB (by decide) (by decide) (by decide) (by decide)

/-- C7: a `delete_message` or `update_message` by a caller who is not the
message's sender — and an `update_message` on a non-text message regardless
of caller — leaves the store unchanged, emits the authorization error to
the calling connection only, and broadcasts nothing to the room. -/
theorem C7_unauthorized_edit_delete_rejected (st : ChatState) (sock : Socket)
    (mid newContent : String) (delOk saveOk : Bool) :
    (∀ m, findMsg st.store mid = some m → m.senderId ≠ sock.userId →
      delete_message st sock mid true delOk =
        (st, [errTo sock "You are not authorized to delete this message."])) ∧
    (∀ m, findMsg st.store mid = some m → m.senderId ≠ sock.userId →
      update_message st sock mid newContent true saveOk =
        (st, [errTo sock
          "You are not authorized to edit this message or it is not a text message."])) ∧
    (∀ m, findMsg st.store mid = some m → m.type = "image" →
      update_message st sock mid newContent true saveOk =
        (st, [errTo sock
          "You are not authorized to edit this message or it is not a text message."])) := by
  refine ⟨?_, ?_, ?_⟩
  · intro m hm hns
    simp [delete_message, hm, hns]
  · intro m hm hns
    simp [update_message, hm, hns]
  · intro m hm ht
    simp [update_message, hm, ht]

/-- C7 witness: Bob cannot delete or edit Alice's text message `m1`, and
even Alice (the sender) cannot edit the image message `m3`. -/
theorem C7_witness :
    delete_message st6 sockB0 "m1" true true =
      (st6, [errTo sockB0 "You are not authorized to delete this message."]) ∧
    update_message st6 sockB0 "m1" "x" true true =
      (st6, [errTo sockB0
        "You are not authorized to edit this message or it is not a text message."]) ∧
    update_message st6 sockA1 "m3" "x" true true =
      (st6, [errTo sockA1
        "You are not authorized to edit this message or it is not a text message."]) := by
  refine ⟨?_, ?_, ?_⟩
  · exact (C7_unauthorized_edit_delete_rejected st6 sockB0 "m1" "x" true true).1
      msgAB (by decide) (by decide)
  · exact (C7_unauthorized_edit_delete_rejected st6 sockB0 "m1" "x" true true).2.1
      msgAB (by decide) (by decide)
  · exact (C7_unauthorized_edit_delete_rejected st6 sockA1 "m3" "x" true true).2.2
      msgImg (by decide) (by decide)

/-- C8 counterexample: the message `m1` exists and is unread; the save of
the read-status mutation fails (`saveOk = false`), and the handler returns
with no store change, no broadcast — and no event of any kind to the
originating connection: the persistence failure is silently swallowed,
contradicting the claim that a failure is reported to the originator. -/
theorem C8_counterexample :
    findMsg st6.store "m1" = some msgAB ∧ msgAB.readStatus = none ∧
    update_message_read_status st6 sockB0 "m1" 99 true false = (st6, []) := by
  refine ⟨by decide, by decide, by decide⟩

/-- C8 (amended): when a persistence write fails, no broadcast is sent and
the store is unchanged on every handler path; `send_message`,
`delete_message` and `update_message` report the failure to the originating
connection, but `update_message_read_status` reports nothing — its catch
block only logs, so that persistence failure is silent toward the client. -/
theorem C8_amended_persistence_failure_paths (st : ChatState) (sock : Socket)
    (d : SendData) (newId mid newContent : String) (now : Int) :
    (∀ recv, falsy d.receiverId = false → falsy d.content = false →
      falsy d.type = false →
      findUser st.users (d.receiverId.getD "") = some recv →
      d.timestamp.isSome = true →
      send_message st sock d false newId =
        (st, [errTo sock "Failed to send message."])) ∧
    (∀ m, findMsg st.store mid = some m → m.senderId = sock.userId →
      delete_message st sock mid true false =
        (st, [errTo sock "Failed to delete message."])) ∧
    (∀ m, findMsg st.store mid = some m → m.senderId = sock.userId →
      m.type = "text" →
      update_message st sock mid newContent true false =
        (st, [errTo sock "Failed to update message."])) ∧
    (∀ m, findMsg st.store mid = some m → m.readStatus = none →
      update_message_read_status st sock mid now true false = (st, [])) := by
  refine ⟨?_, ?_, ?_, ?_⟩
  · intro recv h1 h2 h3 h4 h5
    cases hts : d.timestamp with
    | none => rw [hts] at h5; simp at h5
    | some ts => simp [send_message, h1, h2, h3, h4, hts]
  · intro m hm hsid
    simp [delete_message, hm, hsid]
  · intro m hm hsid ht
    simp [update_message, hm, hsid, ht]
  · intro m hm hrd
    simp [update_message_read_status, hm, hrd]

/-- C8 witness: concrete persistence failures on all four paths — the first
three are reported to the caller, the read-status one is silent. -/
theorem C8_witness :
    send_message stW sockA1 ⟨some "b", some "hi", some 5, some "text"⟩ false "m1" =
      (stW, [errTo sockA1 "Failed to send message."]) ∧
    delete_message st6 sockA1 "m1" true false =
      (st6, [errTo sockA1 "Failed to delete message."]) ∧
    update_message st6 sockA1 "m1" "x" true false =
      (st6, [errTo sockA1 "Failed to update message."]) ∧
    update_message_read_status st6 sockB0 "m1" 99 true false = (st6, []) := by
  refine ⟨?_, ?_, ?_, ?_⟩
  · exact (C8_amended_persistence_failure_paths stW sockA1
      ⟨some "b", some "hi", some 5, some "text"⟩ "m1" "z" "x" 99).1
      uB (by decide) (by decide) (by decide) (by decide) (by decide)
  · exact (C8_amended_persistence_failure_paths st6 sockA1
      ⟨some "b", some "hi", some 5, some "text"⟩ "m1" "m1" "x" 99).2.1
      msgAB (by decide) (by decide)
  · exact (C8_amended_persistence_failure_paths st6 sockA1
      ⟨some "b", some "hi", some 5, some "text"⟩ "m1" "m1" "x" 99).2.2.1
      msgAB (by decide) (by decide) (by decide)
  · exact (C8_amended_persistence_failure_paths st6 sockB0
      ⟨some "b", some "hi", some 5, some "text"⟩ "m1" "m1" "x" 99).2.2.2
      msgAB (by decide) (by decide)

/-- C9 counterexample: Alice sends a message whose `receiverId` is her own
id; she exists in the user collection, so the lookup succeeds and a message
with equal sender and receiver ids is persisted — refuting the claim that
no message is persisted in this case. -/
theorem C9_counterexample :
    sockA0.userId = "a" ∧
    (send_message st9 sockA0 ⟨some "a", some "hi", some 5, some "text"⟩
      true "m1").1.store = [⟨"m1", "a", "a", "hi", 5, none, "text"⟩] := by
  refine ⟨by decide, by decide⟩

/-- C9 (amended): `send_message` enforces no sender-distinct-from-receiver
invariant: whenever the payload's `receiverId` equals the caller's own
verified id and that user exists (all checked fields non-falsy, timestamp
present, save succeeding), a self-message with equal sender and receiver
ids is appended to the store. -/
theorem C9_amended_self_send_persisted (st : ChatState) (sock : Socket)
    (c ty : String) (ts : Int) (newId : String) (u : UserRec)
    (hid : sock.userId.data.isEmpty = false)
    (hc : c.data.isEmpty = false) (hty : ty.data.isEmpty = false)
    (hu : findUser st.users sock.userId = some u) :
    (send_message st sock ⟨some sock.userId, some c, some ts, some ty⟩
      true newId).1.store =
      st.store ++ [⟨newId, sock.userId, sock.userId, c, ts, none, ty⟩] := by
  have he := send_message_success_eq st sock sock.userId c ty ts newId u u
    hid hc hty hu hu
  rw [he]
  simp [findUser_id_eq _ _ _ hu]

/-- C9 witness: the concrete self-send of the counterexample, through the
amended theorem. -/
theorem C9_witness :
    (send_message st9 sockA0 ⟨some sockA0.userId, some "hi", some 5, some "text"⟩
      true "m1").1.store =
      st9.store ++ [⟨"m1", sockA0.userId, sockA0.userId, "hi", 5, none, "text"⟩] :=
  C9_amended_self_send_persisted st9 sockA0 "hi" "text" 5 "m1" uA
    (by decide) (by decide) (by decide) (by decide)
